import Mathlib

/-!
# Verification of the adaptive traffic-signal control program

Shallow embedding of `src/traffic_management.py`, an adaptive signal-timing
controller for a SUMO simulation, together with theorems settling the spec's
claims about it.

Modelling conventions:
* Vehicle counts reported by induction-loop detectors are embedded as `Int`
  (the simulator interface returns integers).
* Phase durations, simulation times and lane lengths are embedded as `ℚ`
  (the simulator reports them as decimal numbers; all arithmetic the program
  performs on them — `+`, `-`, `min`, `max`, comparison — is exact, so `ℚ`
  is a faithful carrier).
* Python dictionaries keyed by approach name are embedded as association
  lists in insertion order, matching Python's ordered-dict iteration.
* The step loop's interaction with the simulator is embedded as a function
  of the values the simulator returns at that step (detector counts, the
  time gap to the next switch, the current program logic).
-/

namespace TrafficSim

/-- Python's substring test `sub in s`, on character lists. -/
def subOf : List Char → List Char → Bool
  | sub, [] => sub.isEmpty
  | sub, c :: t => sub.isPrefixOf (c :: t) || subOf sub t

/-- Python's substring containment `sub in s` for strings. -/
def strContains (s sub : String) : Bool := subOf sub.toList s.toList

/-- The keys of the `sensor_ids` dict (lines 24–29), in insertion order:
the configured approaches. -/
def sensorApproaches : List String := ["north", "south", "east", "west"]

/-- `congestion_threshold = 5` (line 58). -/
def congestion_threshold : Int := 5

/-- `adjustment_step = 5` (line 59). -/
def adjustment_step : ℚ := 5

/-- A lane of the network as seen by the counting loop: its identifier,
whether its edge is internal, and the last-step vehicle number its
detector reports at the current step. -/
structure LaneInfo where
  id : String
  internal : Bool
  count : Int
deriving DecidableEq

/-- Lines 71–74: the first approach (in `sensor_ids` key order) whose name
occurs as a substring of the lane identifier; the `break` makes it
first-match-wins. -/
def firstApproach (laneId : String) : Option String :=
  sensorApproaches.find? (fun a => strContains laneId a)

/-- Lines 63–65: `vehicle_counts` initialised with every approach at 0. -/
def initCounts : List (String × Int) := sensorApproaches.map (fun a => (a, 0))

/-- The dict update `vehicle_counts[a] += n` (the key is always present,
since the dict was initialised with all approach keys). -/
def bump (counts : List (String × Int)) (a : String) (n : Int) :
    List (String × Int) :=
  counts.map (fun p => if p.1 = a then (p.1, p.2 + n) else p)

/-- The body of the counting loop (lines 66–74) for one lane: internal
edges are skipped; otherwise the lane's detector count is added to the
first approach whose name occurs in the lane id, or to none. -/
def countStep (counts : List (String × Int)) (l : LaneInfo) :
    List (String × Int) :=
  if l.internal then counts
  else
    match firstApproach l.id with
    | some a => bump counts a l.count
    | none => counts

/-- Lines 63–74: the Vehicle Count Snapshot for one step. -/
def vehicle_counts (lanes : List LaneInfo) : List (String × Int) :=
  lanes.foldl countStep initCounts

/-- Reading the dict: the value stored for key `a`, if present. -/
def lookupCount : List (String × Int) → String → Option Int
  | [], _ => none
  | (k, v) :: t, a => if a = k then some v else lookupCount t a

/-- Line 76: approaches whose count strictly exceeds the threshold. -/
def congested_approaches (lanes : List LaneInfo) : List String :=
  ((vehicle_counts lanes).filter
    (fun p => congestion_threshold < p.2)).map Prod.fst

/-- The sum of the detector counts of exactly the non-internal lanes whose
first-match approach is `a` (the spec's "lanes mapped to that approach"). -/
def mappedLaneSum (lanes : List LaneInfo) (a : String) : Int :=
  ((lanes.filter
      (fun l => !l.internal && (firstApproach l.id == some a))).map
    LaneInfo.count).sum

/-- One phase of the signal's program logic: a duration and a state string
(one colour letter per controlled link; `G` marks a green movement). -/
structure Phase where
  duration : ℚ
  state : String
deriving DecidableEq

/-- Whether a phase state string contains `G`, i.e. the phase is a green
phase in the spec's sense. -/
def stateHasG (s : String) : Bool := s.toList.contains 'G'

/-- The in-place mutation `phases[i].duration = f(phases[i].duration)`. -/
def modifyDur (f : ℚ → ℚ) : ℕ → List Phase → List Phase
  | _, [] => []
  | 0, p :: ps => { p with duration := f p.duration } :: ps
  | i + 1, p :: ps => p :: modifyDur f i ps

/-- Lines 83–87: the north/south congestion block. Phase 0 is extended by
`adjustment_step` capped at 50; phases 2 and 4, when present, are shrunk
by `adjustment_step` floored at 13. -/
def blockNS (ps : List Phase) : List Phase :=
  let ps1 := modifyDur (fun d => min (d + adjustment_step) 50) 0 ps
  let ps2 :=
    if 2 < ps1.length then
      modifyDur (fun d => max (d - adjustment_step) 13) 2 ps1
    else ps1
  if 4 < ps2.length then
    modifyDur (fun d => max (d - adjustment_step) 13) 4 ps2
  else ps2

/-- Lines 92–96: the east/west congestion block. Phase 2 (when present) is
extended capped at 50; phase 0 unconditionally and phase 4 (when present)
are shrunk floored at 13. -/
def blockEW (ps : List Phase) : List Phase :=
  let ps1 :=
    if 2 < ps.length then
      modifyDur (fun d => min (d + adjustment_step) 50) 2 ps
    else ps
  let ps2 := modifyDur (fun d => max (d - adjustment_step) 13) 0 ps1
  if 4 < ps2.length then
    modifyDur (fun d => max (d - adjustment_step) 13) 4 ps2
  else ps2

/-- Lines 101–105: the any-direction congestion block. Phase 4 (when
present) is extended capped at 50; phase 0 unconditionally and phase 2
(when present) are shrunk floored at 13. -/
def blockAny (ps : List Phase) : List Phase :=
  let ps1 :=
    if 4 < ps.length then
      modifyDur (fun d => min (d + adjustment_step) 50) 4 ps
    else ps
  let ps2 := modifyDur (fun d => max (d - adjustment_step) 13) 0 ps1
  if 2 < ps2.length then
    modifyDur (fun d => max (d - adjustment_step) 13) 2 ps2
  else ps2

/-- Result of one pass through lines 80–106: the phase list of
`current_logic` after the step, and how many `setProgramLogic` calls were
committed. -/
structure AdjResult where
  phases : List Phase
  commits : ℕ
deriving DecidableEq

/-- Lines 80–106: the per-step adjustment. `congested` is the output of
line 76, `gap` is `getNextSwitch - getTime` (the same value in each block,
since simulated time does not advance within a step), `ps` the phase list
of the program logic read at line 78. The three direction blocks run in
sequence on the same in-memory logic object, so their effects compound. -/
def adjust (congested : List String) (gap : ℚ) (ps : List Phase) : AdjResult :=
  if 0 < congested.length then
    let r1 : AdjResult :=
      if congested.contains "north" || congested.contains "south" then
        if gap ≤ 1 then ⟨blockNS ps, 1⟩ else ⟨ps, 0⟩
      else ⟨ps, 0⟩
    let r2 : AdjResult :=
      if congested.contains "east" || congested.contains "west" then
        if gap ≤ 1 then ⟨blockEW r1.phases, r1.commits + 1⟩ else r1
      else r1
    if ["east", "west", "north", "south"].any
        (fun a => congested.contains a) then
      if gap ≤ 1 then ⟨blockAny r2.phases, r2.commits + 1⟩ else r2
    else r2
  else ⟨ps, 0⟩

/-- A lane of the network file: identifier and length. -/
structure NetLane where
  id : String
  length : ℚ
deriving DecidableEq

/-- An edge of the network file: its function tag and its lanes. -/
structure NetEdge where
  function : String
  lanes : List NetLane
deriving DecidableEq

/-- Lines 42–44: the detector position written for a lane of length
`length`. Python's float literals `5` and `0.1` are exact here, embedded
as `5` and `1/10`. -/
def detectorPos (length : ℚ) : ℚ :=
  let position := length - 5
  if position < 0 then 1 / 10 else position

/-- The body of the writer loop (lines 37–46) for one edge: internal
edges are skipped; otherwise one detector entry per lane is appended. -/
def detectorStep (acc : List (String × ℚ)) (e : NetEdge) :
    List (String × ℚ) :=
  if e.function ≠ "internal" then
    acc ++ e.lanes.map (fun l => ("detector_" ++ l.id, detectorPos l.length))
  else acc

/-- Lines 36–47: the (detector id, position) pairs written to the
additional file, one per lane of every non-internal edge. -/
def detectorEntries (edges : List NetEdge) : List (String × ℚ) :=
  edges.foldl detectorStep []

/-- Outcome of one iteration of the step loop: either all simulator calls
in it return, or one of them raises a fatal simulator error. -/
inductive StepOutcome
  | ok
  | err
deriving DecidableEq

/-- How `run_simulation` exits: how many times `traci.close()` ran, and
whether an exception propagated to the caller. -/
structure RunExit where
  closeCalls : ℕ
  raised : Bool
deriving DecidableEq

/-- Lines 61–112, control flow of the step loop: the loop body has no
try/finally around it and `traci.close()` is the first statement after the
loop, so a normal loop exit reaches it once, while an exception inside any
iteration propagates out of `run_simulation` without reaching it. The
argument lists the outcome of each iteration the loop would perform. -/
def runLoop : List StepOutcome → RunExit
  | [] => ⟨1, false⟩
  | .ok :: rest => runLoop rest
  | .err :: _ => ⟨0, true⟩

/-- The state of the trip-log file handed to the analyzer: absent,
present but not well-formed XML, or parsed with some records. -/
inductive TripFile
  | missing
  | malformed
  | parsed (records : ℕ)
deriving DecidableEq

/-- What one printed line of `analyze_tripinfo` is. -/
inductive OutMsg
  | fileNotFoundError
  | parseError
  | statsReport
deriving DecidableEq

/-- How `analyze_tripinfo` exits: what it printed, and whether an
exception propagated to the caller. -/
structure AnalyzeExit where
  output : List OutMsg
  raised : Bool
deriving DecidableEq

/-- Lines 114–141: `ET.parse` raising `FileNotFoundError` or
`ET.ParseError` is caught by the matching `except` clause, which prints a
message and falls off the end of the function; the statistics prints are
only reached when parsing succeeded. -/
def analyze_tripinfo : TripFile → AnalyzeExit
  | .missing => ⟨[.fileNotFoundError], false⟩
  | .malformed => ⟨[.parseError], false⟩
  | .parsed _ => ⟨[.statsReport], false⟩

/-- Phase indices accessed by the north/south block (lines 83–87):
index 0 unconditionally, 2 under `len > 2`, 4 under `len > 4`. -/
def nsIndices (n : ℕ) : List ℕ :=
  [0] ++ (if 2 < n then [2] else []) ++ (if 4 < n then [4] else [])

/-- Phase indices accessed by the east/west block (lines 92–96). -/
def ewIndices (n : ℕ) : List ℕ :=
  (if 2 < n then [2] else []) ++ [0] ++ (if 4 < n then [4] else [])

/-- Phase indices accessed by the any-direction block (lines 101–105). -/
def anyIndices (n : ℕ) : List ℕ :=
  (if 4 < n then [4] else []) ++ [0] ++ (if 2 < n then [2] else [])

/-- All phase indices the adjustment code (lines 80–106) subscripts on a
plan of `n` phases, given the congested list and the trigger gap; mirrors
the guards of `adjust` block by block. -/
def accessedIndices (congested : List String) (gap : ℚ) (n : ℕ) : List ℕ :=
  if 0 < congested.length then
    (if congested.contains "north" || congested.contains "south" then
      if gap ≤ 1 then nsIndices n else []
    else []) ++
    (if congested.contains "east" || congested.contains "west" then
      if gap ≤ 1 then ewIndices n else []
    else []) ++
    (if ["east", "west", "north", "south"].any
        (fun a => congested.contains a) then
      if gap ≤ 1 then anyIndices n else []
    else [])
  else []

/-! ## Helper lemmas -/

lemma modifyDur_zero (f : ℚ → ℚ) (p : Phase) (ps : List Phase) :
    modifyDur f 0 (p :: ps) = { p with duration := f p.duration } :: ps := rfl

lemma modifyDur_two (f : ℚ → ℚ) (a b c : Phase) (ps : List Phase) :
    modifyDur f 2 (a :: b :: c :: ps) =
      a :: b :: { c with duration := f c.duration } :: ps := rfl

lemma modifyDur_four (f : ℚ → ℚ) (a b c d e : Phase) (ps : List Phase) :
    modifyDur f 4 (a :: b :: c :: d :: e :: ps) =
      a :: b :: c :: d :: { e with duration := f e.duration } :: ps := rfl

lemma modifyDur_bounds {f : ℚ → ℚ}
    (hf : ∀ d : ℚ, 13 ≤ d → d ≤ 50 → 13 ≤ f d ∧ f d ≤ 50) :
    ∀ (i : ℕ) (ps : List Phase),
      (∀ p ∈ ps, 13 ≤ p.duration ∧ p.duration ≤ 50) →
      ∀ p ∈ modifyDur f i ps, 13 ≤ p.duration ∧ p.duration ≤ 50 := by
  intro i ps
  induction ps generalizing i with
  | nil => intro _ p hp; simp [modifyDur] at hp
  | cons q t ih =>
    intro h p hp
    match i with
    | 0 =>
      rw [modifyDur_zero] at hp
      rcases List.mem_cons.mp hp with rfl | hp
      · have hq := h q (List.mem_cons_self q t)
        exact hf q.duration hq.1 hq.2
      · exact h p (List.mem_cons_of_mem q hp)
    | j + 1 =>
      rw [modifyDur] at hp
      rcases List.mem_cons.mp hp with rfl | hp
      · exact h p (List.mem_cons_self p t)
      · exact ih j (fun r hr => h r (List.mem_cons_of_mem q hr)) p hp

lemma raise_bounds (d : ℚ) (h13 : 13 ≤ d) (_ : d ≤ 50) :
    13 ≤ min (d + adjustment_step) 50 ∧ min (d + adjustment_step) 50 ≤ 50 := by
  unfold adjustment_step
  constructor
  · exact le_min (by linarith) (by norm_num)
  · exact min_le_right _ _

lemma lower_bounds (d : ℚ) (_ : 13 ≤ d) (h50 : d ≤ 50) :
    13 ≤ max (d - adjustment_step) 13 ∧ max (d - adjustment_step) 13 ≤ 50 := by
  unfold adjustment_step
  constructor
  · exact le_max_right _ _
  · exact max_le (by linarith) (by norm_num)

lemma ite_list_bounds {c : Prop} [Decidable c] {a b : List Phase}
    (ha : ∀ p ∈ a, 13 ≤ p.duration ∧ p.duration ≤ 50)
    (hb : ∀ p ∈ b, 13 ≤ p.duration ∧ p.duration ≤ 50) :
    ∀ p ∈ (if c then a else b), 13 ≤ p.duration ∧ p.duration ≤ 50 := by
  split <;> assumption

lemma blockNS_bounds (ps : List Phase)
    (h : ∀ p ∈ ps, 13 ≤ p.duration ∧ p.duration ≤ 50) :
    ∀ p ∈ blockNS ps, 13 ≤ p.duration ∧ p.duration ≤ 50 := by
  unfold blockNS
  exact ite_list_bounds
    (modifyDur_bounds lower_bounds 4 _
      (ite_list_bounds (modifyDur_bounds lower_bounds 2 _
          (modifyDur_bounds raise_bounds 0 _ h))
        (modifyDur_bounds raise_bounds 0 _ h)))
    (ite_list_bounds (modifyDur_bounds lower_bounds 2 _
        (modifyDur_bounds raise_bounds 0 _ h))
      (modifyDur_bounds raise_bounds 0 _ h))

lemma blockEW_bounds (ps : List Phase)
    (h : ∀ p ∈ ps, 13 ≤ p.duration ∧ p.duration ≤ 50) :
    ∀ p ∈ blockEW ps, 13 ≤ p.duration ∧ p.duration ≤ 50 := by
  unfold blockEW
  exact ite_list_bounds
    (modifyDur_bounds lower_bounds 4 _
      (modifyDur_bounds lower_bounds 0 _
        (ite_list_bounds (modifyDur_bounds raise_bounds 2 _ h) h)))
    (modifyDur_bounds lower_bounds 0 _
      (ite_list_bounds (modifyDur_bounds raise_bounds 2 _ h) h))

lemma blockAny_bounds (ps : List Phase)
    (h : ∀ p ∈ ps, 13 ≤ p.duration ∧ p.duration ≤ 50) :
    ∀ p ∈ blockAny ps, 13 ≤ p.duration ∧ p.duration ≤ 50 := by
  unfold blockAny
  exact ite_list_bounds
    (modifyDur_bounds lower_bounds 2 _
      (modifyDur_bounds lower_bounds 0 _
        (ite_list_bounds (modifyDur_bounds raise_bounds 4 _ h) h)))
    (modifyDur_bounds lower_bounds 0 _
      (ite_list_bounds (modifyDur_bounds raise_bounds 4 _ h) h))

lemma bump_keys (counts : List (String × Int)) (a : String) (n : Int) :
    (bump counts a n).map Prod.fst = counts.map Prod.fst := by
  induction counts with
  | nil => rfl
  | cons p t ih =>
    by_cases h : p.1 = a <;> simp [bump, h] <;>
      simpa [bump] using ih

lemma countStep_keys (counts : List (String × Int)) (l : LaneInfo) :
    (countStep counts l).map Prod.fst = counts.map Prod.fst := by
  unfold countStep
  split
  · rfl
  · match firstApproach l.id with
    | some a => exact bump_keys counts a l.count
    | none => rfl

lemma foldl_countStep_keys (lanes : List LaneInfo) :
    ∀ acc : List (String × Int),
      (lanes.foldl countStep acc).map Prod.fst = acc.map Prod.fst := by
  induction lanes with
  | nil => intro acc; rfl
  | cons l t ih =>
    intro acc
    rw [List.foldl_cons, ih (countStep acc l), countStep_keys]

lemma lookup_bump (counts : List (String × Int)) (a b : String) (n : Int) :
    lookupCount (bump counts b n) a =
      (lookupCount counts a).map (fun v => if a = b then v + n else v) := by
  induction counts with
  | nil => rfl
  | cons p t ih =>
    obtain ⟨k, v⟩ := p
    simp only [bump, List.map_cons]
    by_cases hkb : k = b
    · subst hkb
      rw [if_pos rfl]
      simp only [lookupCount]
      by_cases hak : a = k
      · subst hak
        rw [if_pos rfl, if_pos rfl]
        simp
      · rw [if_neg hak, if_neg hak]
        simpa [bump] using ih
    · rw [if_neg hkb]
      simp only [lookupCount]
      by_cases hak : a = k
      · subst hak
        rw [if_pos rfl, if_pos rfl]
        simp [hkb]
      · rw [if_neg hak, if_neg hak]
        simpa [bump] using ih

lemma mappedLaneSum_cons (l : LaneInfo) (t : List LaneInfo) (a : String) :
    mappedLaneSum (l :: t) a =
      (if !l.internal && (firstApproach l.id == some a) then l.count else 0) +
        mappedLaneSum t a := by
  unfold mappedLaneSum
  rw [List.filter_cons]
  split <;> simp_all

lemma lookup_foldl_countStep (lanes : List LaneInfo) :
    ∀ (acc : List (String × Int)) (a : String),
      lookupCount (lanes.foldl countStep acc) a =
        (lookupCount acc a).map (fun v => v + mappedLaneSum lanes a) := by
  induction lanes with
  | nil =>
    intro acc a
    have h0 : mappedLaneSum [] a = 0 := rfl
    rw [List.foldl_nil, h0]
    cases lookupCount acc a <;> simp
  | cons l t ih =>
    intro acc a
    rw [List.foldl_cons, ih (countStep acc l) a, mappedLaneSum_cons]
    by_cases hint : l.internal
    · simp [countStep, hint]
    · cases hfa : firstApproach l.id with
      | some b =>
        simp only [countStep, hint, if_false, Bool.false_eq_true, hfa]
        rw [lookup_bump]
        by_cases hab : a = b
        · subst hab
          cases lookupCount acc a <;> simp
          ring
        · have hne : (some b == some a) = false := by
            simp only [beq_eq_false_iff_ne, ne_eq, Option.some.injEq]
            exact fun h => hab h.symm
          cases lookupCount acc a <;> simp [hab, hne]
      | none =>
        simp only [countStep, hint, if_false, Bool.false_eq_true, hfa]
        cases lookupCount acc a <;> simp

lemma initCounts_keys : initCounts.map Prod.fst = sensorApproaches := rfl

lemma lookup_initCounts (a : String) (ha : a ∈ sensorApproaches) :
    lookupCount initCounts a = some 0 := by
  rw [sensorApproaches] at ha
  rcases List.mem_cons.mp ha with rfl | ha
  · decide
  rcases List.mem_cons.mp ha with rfl | ha
  · decide
  rcases List.mem_cons.mp ha with rfl | ha
  · decide
  rcases List.mem_cons.mp ha with rfl | ha
  · decide
  exact absurd ha (List.not_mem_nil a)

lemma bump_nonneg (counts : List (String × Int)) (a : String) (n : Int)
    (hn : 0 ≤ n) (h : ∀ pr ∈ counts, 0 ≤ pr.2) :
    ∀ pr ∈ bump counts a n, 0 ≤ pr.2 := by
  intro pr hpr
  unfold bump at hpr
  rcases List.mem_map.mp hpr with ⟨q, hq, rfl⟩
  split
  · exact add_nonneg (h q hq) hn
  · exact h q hq

lemma foldl_countStep_nonneg (lanes : List LaneInfo)
    (hl : ∀ l ∈ lanes, 0 ≤ l.count) :
    ∀ acc : List (String × Int), (∀ pr ∈ acc, 0 ≤ pr.2) →
      ∀ pr ∈ lanes.foldl countStep acc, 0 ≤ pr.2 := by
  induction lanes with
  | nil => intro acc hacc; exact hacc
  | cons l t ih =>
    intro acc hacc
    rw [List.foldl_cons]
    refine ih (fun x hx => hl x (List.mem_cons_of_mem l hx)) _ ?_
    unfold countStep
    split
    · exact hacc
    · match firstApproach l.id with
      | some b =>
        exact bump_nonneg acc b l.count (hl l (List.mem_cons_self l t)) hacc
      | none => exact hacc

lemma detectorPos_nonneg (len : ℚ) : 0 ≤ detectorPos len := by
  show 0 ≤ if len - 5 < 0 then 1 / 10 else len - 5
  split_ifs with h
  · norm_num
  · linarith [not_lt.mp h]

lemma foldl_detectorStep_nonneg (edges : List NetEdge) :
    ∀ acc : List (String × ℚ), (∀ pr ∈ acc, 0 ≤ pr.2) →
      ∀ pr ∈ edges.foldl detectorStep acc, 0 ≤ pr.2 := by
  induction edges with
  | nil => intro acc hacc; exact hacc
  | cons e t ih =>
    intro acc hacc
    rw [List.foldl_cons]
    refine ih _ ?_
    unfold detectorStep
    split
    · intro pr hpr
      rcases List.mem_append.mp hpr with hpr | hpr
      · exact hacc pr hpr
      · rcases List.mem_map.mp hpr with ⟨l, _, rfl⟩
        exact detectorPos_nonneg l.length
    · exact hacc

lemma ite_adjres {c : Prop} [Decidable c] {x y : AdjResult}
    (hx : ∀ p ∈ x.phases, 13 ≤ p.duration ∧ p.duration ≤ 50)
    (hy : ∀ p ∈ y.phases, 13 ≤ p.duration ∧ p.duration ≤ 50) :
    ∀ p ∈ (if c then x else y).phases, 13 ≤ p.duration ∧ p.duration ≤ 50 := by
  split <;> assumption

lemma mem_nsIndices_lt (n i : ℕ) (hn : 1 ≤ n) (hi : i ∈ nsIndices n) :
    i < n := by
  unfold nsIndices at hi
  split_ifs at hi <;> simp at hi <;> omega

lemma mem_ewIndices_lt (n i : ℕ) (hn : 1 ≤ n) (hi : i ∈ ewIndices n) :
    i < n := by
  unfold ewIndices at hi
  split_ifs at hi <;> simp at hi <;> omega

lemma mem_anyIndices_lt (n i : ℕ) (hn : 1 ≤ n) (hi : i ∈ anyIndices n) :
    i < n := by
  unfold anyIndices at hi
  split_ifs at hi <;> simp at hi <;> omega

lemma mem_accessedIndices (congested : List String) (gap : ℚ) (n i : ℕ)
    (hi : i ∈ accessedIndices congested gap n) :
    i ∈ nsIndices n ∨ i ∈ ewIndices n ∨ i ∈ anyIndices n := by
  unfold accessedIndices at hi
  split_ifs at hi <;> simp [List.mem_append] at hi <;> tauto

/-! ## Claims -/

/-- C3: for every simulation step, if `nextSwitchTime - currentSimTime > 1`
at that step, then no phase duration of the timing plan is modified and no
program-logic update is committed to the simulator during that step,
regardless of which approaches are congested. -/
theorem C3_no_adjustment_before_trigger (congested : List String) (gap : ℚ)
    (ps : List Phase) (h : 1 < gap) :
    adjust congested gap ps = ⟨ps, 0⟩ := by
  have hg : ¬ gap ≤ 1 := not_le.mpr h
  unfold adjust
  split
  · simp [hg]
  · rfl

/-- Witness for C3 at a concrete step: only north congested, the next
switch 2 seconds away, a one-phase plan — nothing changes, nothing is
committed. -/
theorem C3_witness :
    adjust ["north"] 2 [⟨12, "GGrr"⟩] = ⟨[⟨12, "GGrr"⟩], 0⟩ :=
  C3_no_adjustment_before_trigger ["north"] 2 [⟨12, "GGrr"⟩] (by norm_num)

/-- C4: for every simulation step at which the trigger condition holds but
the Congested Set is empty, the Timing Plan is unchanged after that step:
no phase duration is modified and no plan is written back to the
simulator. -/
theorem C4_empty_congested_no_change (lanes : List LaneInfo) (gap : ℚ)
    (ps : List Phase) (hc : congested_approaches lanes = [])
    (_htrig : gap ≤ 1) :
    adjust (congested_approaches lanes) gap ps = ⟨ps, 0⟩ := by
  rw [hc]
  rfl

/-- Witness for C4 at a concrete step: one north lane carrying 2 vehicles
(below the threshold 5), trigger gap 0 — the plan is returned untouched
and no commit happens. -/
theorem C4_witness :
    adjust (congested_approaches [⟨"north_1", false, 2⟩]) 0 [⟨12, "GGrr"⟩] =
      ⟨[⟨12, "GGrr"⟩], 0⟩ :=
  C4_empty_congested_no_change [⟨"north_1", false, 2⟩] 0 [⟨12, "GGrr"⟩]
    (by decide) (by norm_num)

/-- C8 counterexample: the claim says the close operation runs exactly once
on every exit path, exceptional exits included. In the code `traci.close()`
is only the statement after the `while` loop, with no try/finally: on a
run whose second step raises a fatal simulator error, close runs zero
times and the exception propagates. -/
theorem C8_counterexample :
    (runLoop [StepOutcome.ok, StepOutcome.err]).closeCalls = 0 ∧
      (runLoop [StepOutcome.ok, StepOutcome.err]).raised = true := by
  decide

/-- C8 as amended: the simulator connection close operation is invoked
exactly once on a normal completion of the step loop, and zero times when
an iteration raises — the exception propagates without cleanup. -/
theorem C8_close_only_on_normal_exit (trace : List StepOutcome) :
    (runLoop trace).closeCalls = if (runLoop trace).raised then 0 else 1 := by
  induction trace with
  | nil => rfl
  | cons s t ih =>
    cases s with
    | ok => exact ih
    | err => rfl

/-- C9: for a trip-log path whose file does not exist, and for a file that
is not well-formed XML, `analyze_tripinfo` returns normally after printing
an error message, produces no statistics output, and never propagates the
exception to its caller. -/
theorem C9_analyzer_catches_file_errors :
    analyze_tripinfo TripFile.missing =
        ⟨[OutMsg.fileNotFoundError], false⟩ ∧
      analyze_tripinfo TripFile.malformed = ⟨[OutMsg.parseError], false⟩ ∧
      OutMsg.statsReport ∉ (analyze_tripinfo TripFile.missing).output ∧
      OutMsg.statsReport ∉ (analyze_tripinfo TripFile.malformed).output := by
  decide

/-- C10: in every adjustment branch, accesses to phase indices 2 and 4 are
guarded by a phase-count check (`> 2`, resp. `> 4`) while index 0 is
accessed unconditionally; hence on a plan with at least one phase every
access is in bounds, and on a zero-phase plan the unconditional index-0
access (second conjunct: 0 is accessed when north is congested at a
trigger) is out of bounds — a precondition violation. -/
theorem C10_index_guards :
    (∀ (congested : List String) (gap : ℚ) (n : ℕ), 1 ≤ n →
        ∀ i ∈ accessedIndices congested gap n, i < n) ∧
      0 ∈ accessedIndices ["north"] 0 0 := by
  constructor
  · intro c gap n hn i hi
    rcases mem_accessedIndices c gap n i hi with h | h | h
    · exact mem_nsIndices_lt n i hn h
    · exact mem_ewIndices_lt n i hn h
    · exact mem_anyIndices_lt n i hn h
  · simp [accessedIndices, nsIndices, ewIndices, anyIndices]

/-- Witness for C10 on a three-phase plan with only north congested at a
trigger: index 2 is among the accessed indices and is in bounds. -/
theorem C10_witness :
    2 ∈ accessedIndices ["north"] 0 3 ∧ 2 < 3 := by
  have hmem : 2 ∈ accessedIndices ["north"] 0 3 := by
    simp [accessedIndices, nsIndices, ewIndices, anyIndices]
  exact ⟨hmem, C10_index_guards.1 ["north"] 0 3 (by norm_num) 2 hmem⟩

/-- C1 counterexample: the claim says that whenever the Congested Set is
non-empty and the active phase is green, that phase's duration strictly
increases and every other green phase's strictly decreases. The code never
consults which phase is active: with only north congested at a trigger and
the active phase being index 2 (state "rrGG", a green phase, duration 20),
the adjustment leaves durations [13, 3, 13, 3, 18] — the active green
phase strictly decreased (20 to 13) and the green phase at index 4
increased. -/
theorem C1_counterexample :
    stateHasG ((([⟨12, "GGrr"⟩, ⟨3, "yyyy"⟩, ⟨20, "rrGG"⟩, ⟨3, "yyyy"⟩,
        ⟨12, "GGGG"⟩] : List Phase).getD 2 ⟨0, ""⟩).state) = true ∧
      (adjust ["north"] 0 [⟨12, "GGrr"⟩, ⟨3, "yyyy"⟩, ⟨20, "rrGG"⟩,
        ⟨3, "yyyy"⟩, ⟨12, "GGGG"⟩]).commits = 2 ∧
      (adjust ["north"] 0 [⟨12, "GGrr"⟩, ⟨3, "yyyy"⟩, ⟨20, "rrGG"⟩,
        ⟨3, "yyyy"⟩, ⟨12, "GGGG"⟩]).phases.map Phase.duration =
        [13, 3, 13, 3, 18] ∧
      ((adjust ["north"] 0 [⟨12, "GGrr"⟩, ⟨3, "yyyy"⟩, ⟨20, "rrGG"⟩,
        ⟨3, "yyyy"⟩, ⟨12, "GGGG"⟩]).phases.getD 2 ⟨0, ""⟩).duration < 20 := by
  have hadj : adjust ["north"] 0 [⟨12, "GGrr"⟩, ⟨3, "yyyy"⟩, ⟨20, "rrGG"⟩,
      ⟨3, "yyyy"⟩, ⟨12, "GGGG"⟩] =
      ⟨[⟨13, "GGrr"⟩, ⟨3, "yyyy"⟩, ⟨13, "rrGG"⟩, ⟨3, "yyyy"⟩,
        ⟨18, "GGGG"⟩], 2⟩ := by
    simp [adjust, blockNS, blockEW, blockAny, adjustment_step,
      modifyDur_zero, modifyDur_two, modifyDur_four]
    norm_num
  refine ⟨by decide, ?_, ?_, ?_⟩ <;> rw [hadj] <;> norm_num

/-- C1 as amended: the controller ignores the active phase and its state
string; it adjusts fixed indices by congested direction, and the blocks
compound. With only north congested at a trigger, on a plan of more than
four phases, phase 0 ends at `max (min (d0 + 5) 50 - 5) 13` (raised by the
north/south block, then lowered by the catch-all block), phases 2 ends
twice-lowered, phase 4 ends lowered then raised, every other phase is
unchanged, and two program-logic commits happen. -/
theorem C1_amended_fixed_index_policy (p0 p1 p2 p3 p4 : Phase)
    (rest : List Phase) (gap : ℚ) (hg : gap ≤ 1) :
    adjust ["north"] gap (p0 :: p1 :: p2 :: p3 :: p4 :: rest) =
      ⟨{ p0 with duration := max (min (p0.duration + adjustment_step) 50 - adjustment_step) 13 }
        :: p1 ::
        { p2 with duration := max (max (p2.duration - adjustment_step) 13 - adjustment_step) 13 }
        :: p3 ::
        { p4 with duration := min (max (p4.duration - adjustment_step) 13 + adjustment_step) 50 }
        :: rest, 2⟩ := by
  simp [adjust, blockNS, blockAny, blockEW, hg, modifyDur_zero,
    modifyDur_two, modifyDur_four]

/-- Witness for C1 as amended, at the all-12 five-phase plan and gap 0:
durations become [13, 3, 13, 3, 18]. -/
theorem C1_witness :
    adjust ["north"] 0 [⟨12, "GGrr"⟩, ⟨3, "yyyy"⟩, ⟨12, "rrGG"⟩,
        ⟨3, "yyyy"⟩, ⟨12, "GGGG"⟩] =
      ⟨[⟨13, "GGrr"⟩, ⟨3, "yyyy"⟩, ⟨13, "rrGG"⟩, ⟨3, "yyyy"⟩,
        ⟨18, "GGGG"⟩], 2⟩ := by
  rw [C1_amended_fixed_index_policy ⟨12, "GGrr"⟩ ⟨3, "yyyy"⟩ ⟨12, "rrGG"⟩
    ⟨3, "yyyy"⟩ ⟨12, "GGGG"⟩ [] 0 (by norm_num)]
  norm_num [adjustment_step]

/-- C2 counterexample: the claim quantifies over every phase of the plan.
The yellow phase at index 1 is never adjusted, so on the spec's own
scenario plan (green 12, yellow 6) an adjustment commits (twice) yet the
yellow phase still has duration 6, below `min_green_duration = 13`. -/
theorem C2_counterexample :
    (adjust ["north"] 0 [⟨12, "GGGG"⟩, ⟨6, "yyyy"⟩]).commits = 2 ∧
      (adjust ["north"] 0 [⟨12, "GGGG"⟩, ⟨6, "yyyy"⟩]).phases.map
        Phase.duration = [13, 6] ∧
      ¬ 13 ≤ ((adjust ["north"] 0 [⟨12, "GGGG"⟩, ⟨6, "yyyy"⟩]).phases.getD 1
        ⟨0, ""⟩).duration := by
  have hadj : adjust ["north"] 0 [⟨12, "GGGG"⟩, ⟨6, "yyyy"⟩] =
      ⟨[⟨13, "GGGG"⟩, ⟨6, "yyyy"⟩], 2⟩ := by
    simp [adjust, blockNS, blockEW, blockAny, adjustment_step,
      modifyDur_zero, modifyDur_two, modifyDur_four, modifyDur]
    norm_num
  refine ⟨?_, ?_, ?_⟩ <;> rw [hadj] <;> norm_num

/-- C2 as amended: the bounds are an invariant the adjustment preserves
rather than establishes — if every phase duration of the plan read from
the simulator lies in [13, 50], then after any adjustment every phase
duration still lies in [13, 50]. -/
theorem C2_bounds_preserved (congested : List String) (gap : ℚ)
    (ps : List Phase)
    (h : ∀ p ∈ ps, 13 ≤ p.duration ∧ p.duration ≤ 50) :
    ∀ p ∈ (adjust congested gap ps).phases,
      13 ≤ p.duration ∧ p.duration ≤ 50 := by
  unfold adjust
  split
  · refine ite_adjres (ite_adjres (blockAny_bounds _ ?_) ?_) ?_
    all_goals refine ite_adjres (ite_adjres (blockEW_bounds _ ?_) ?_) ?_
    all_goals exact ite_adjres (ite_adjres (blockNS_bounds ps h) h) h
  · exact h

/-- Witness for C2 as amended at a one-phase plan with duration 13, north
congested, gap 0: the adjusted plan's head still lies within [13, 50]. -/
theorem C2_witness :
    13 ≤ ((adjust ["north"] 0 [⟨13, "GGGG"⟩]).phases.headD ⟨0, ""⟩).duration ∧
      ((adjust ["north"] 0 [⟨13, "GGGG"⟩]).phases.headD ⟨0, ""⟩).duration
        ≤ 50 := by
  have hmem : (adjust ["north"] 0 [⟨13, "GGGG"⟩]).phases.headD ⟨0, ""⟩ ∈
      (adjust ["north"] 0 [⟨13, "GGGG"⟩]).phases := by
    have hadj : adjust ["north"] 0 [⟨13, "GGGG"⟩] =
        ⟨[⟨13, "GGGG"⟩], 2⟩ := by
      simp [adjust, blockNS, blockEW, blockAny, adjustment_step,
        modifyDur_zero, modifyDur_two, modifyDur_four, modifyDur]
    norm_num
    rw [hadj]
    simp
  exact C2_bounds_preserved ["north"] 0 [⟨13, "GGGG"⟩]
    (by
      intro p hp
      rcases List.mem_singleton.mp hp with rfl
      exact ⟨by norm_num, by norm_num⟩)
    _ hmem

/-- C5: at every step, the Vehicle Count Snapshot has exactly one entry
per configured approach (north, south, east, west, in that order), each
entry is non-negative (given that every detector reports a non-negative
count), and each approach's entry equals the sum of the last-step counts
of exactly the non-internal lanes whose first matching approach is that
approach — lanes mapped to no approach contribute to no total. -/
theorem C5_snapshot_per_approach (lanes : List LaneInfo)
    (h : ∀ l ∈ lanes, 0 ≤ l.count) :
    (vehicle_counts lanes).map Prod.fst = sensorApproaches ∧
      (∀ a ∈ sensorApproaches,
        lookupCount (vehicle_counts lanes) a =
          some (mappedLaneSum lanes a)) ∧
      ∀ pr ∈ vehicle_counts lanes, 0 ≤ pr.2 := by
  refine ⟨?_, ?_, ?_⟩
  · rw [vehicle_counts, foldl_countStep_keys, initCounts_keys]
  · intro a ha
    rw [vehicle_counts, lookup_foldl_countStep, lookup_initCounts a ha]
    simp
  · exact foldl_countStep_nonneg lanes h initCounts (by decide)

/-- Witness for C5: two non-internal lanes, one mapped to north with
count 3, one (`xyz`) mapped to no approach with count 8 — the north entry
equals the mapped-lane sum (3; the unmapped lane contributes nothing). -/
theorem C5_witness :
    lookupCount (vehicle_counts [⟨"north_1", false, 3⟩, ⟨"xyz", false, 8⟩])
        "north" =
      some (mappedLaneSum [⟨"north_1", false, 3⟩, ⟨"xyz", false, 8⟩]
        "north") :=
  (C5_snapshot_per_approach [⟨"north_1", false, 3⟩, ⟨"xyz", false, 8⟩]
    (by decide)).2.1 "north" (by decide)

/-- C6 counterexample: the claim's premise lane id `754598165#2_0` does
not contain any approach name, so its 8 vehicles (above the threshold 5)
map to no approach and "north" is NOT in the Congested Set — the claimed
scenario does not happen on the code. -/
theorem C6_counterexample :
    congestion_threshold < 8 ∧
      congested_approaches [⟨"754598165#2_0", false, 8⟩] = [] := by
  decide

/-- C6 as amended: a lane's count reaches approach "north" only when the
string "north" occurs in the lane id; a lane `north_754598165#2_0`
carrying 8 > 5 makes north congested. At the following trigger with only
north congested, on a five-phase plan with green phases 0, 2, 4 at
durations 12, the active-direction phase 0 ends at 13, not 17: the
north/south block raises it to 17 but the catch-all block lowers it back,
flooring at 13; the competing green phase 2 ends at 13 (floored, not
reduced to 7), and phase 4 ends at 18. -/
theorem C6_amended_scenario :
    congested_approaches [⟨"north_754598165#2_0", false, 8⟩] = ["north"] ∧
      (adjust ["north"] 0 [⟨12, "GGgrrr"⟩, ⟨3, "yyyrrr"⟩, ⟨12, "rrrGGg"⟩,
        ⟨3, "rrryyy"⟩, ⟨12, "GGGGGG"⟩]).phases.map Phase.duration =
        [13, 3, 13, 3, 18] ∧
      (adjust ["north"] 0 [⟨12, "GGgrrr"⟩, ⟨3, "yyyrrr"⟩, ⟨12, "rrrGGg"⟩,
        ⟨3, "rrryyy"⟩, ⟨12, "GGGGGG"⟩]).commits = 2 := by
  have hadj : adjust ["north"] 0 [⟨12, "GGgrrr"⟩, ⟨3, "yyyrrr"⟩,
      ⟨12, "rrrGGg"⟩, ⟨3, "rrryyy"⟩, ⟨12, "GGGGGG"⟩] =
      ⟨[⟨13, "GGgrrr"⟩, ⟨3, "yyyrrr"⟩, ⟨13, "rrrGGg"⟩, ⟨3, "rrryyy"⟩,
        ⟨18, "GGGGGG"⟩], 2⟩ := by
    simp [adjust, blockNS, blockEW, blockAny, adjustment_step,
      modifyDur_zero, modifyDur_two, modifyDur_four]
    norm_num
  refine ⟨by decide, ?_, ?_⟩ <;> rw [hadj] <;> norm_num

/-- C7 counterexample: the code computes `length - 5` and only replaces it
by 0.1 when strictly negative. For a non-internal lane of length exactly
5 the written position is 0 — not `max (length - 5, 0.1) = 0.1`, and in
particular a written position of 0 is possible, contradicting "never 0 or
negative" and "0.1 for every length ≤ 5.1". -/
theorem C7_counterexample :
    detectorEntries [⟨"normal", [⟨"L", 5⟩]⟩] = [("detector_L", 0)] ∧
      (0 : ℚ) ≠ max ((5 : ℚ) - 5) (1 / 10) := by
  constructor
  · simp [detectorEntries, detectorStep, detectorPos]
  · norm_num

/-- C7 as amended: the detector for a lane is placed at `length - 5` when
`length ≥ 5` and at 0.1 when `length < 5`; written positions are never
negative, but can be 0 (length exactly 5) or lie strictly between 0 and
0.1 (lengths in (5, 5.1)). -/
theorem C7_amended_position_formula :
    (∀ len : ℚ, (len < 5 → detectorPos len = 1 / 10) ∧
        (5 ≤ len → detectorPos len = len - 5) ∧ 0 ≤ detectorPos len) ∧
      ∀ edges : List NetEdge, ∀ pr ∈ detectorEntries edges, 0 ≤ pr.2 := by
  constructor
  · intro len
    refine ⟨?_, ?_, detectorPos_nonneg len⟩
    · intro hlen
      show (if len - 5 < 0 then 1 / 10 else len - 5) = 1 / 10
      rw [if_pos (by linarith)]
    · intro hlen
      show (if len - 5 < 0 then 1 / 10 else len - 5) = len - 5
      rw [if_neg (by linarith)]
  · intro edges
    exact foldl_detectorStep_nonneg edges [] (by simp)

/-- Witness for C7 as amended at length 3 (a short lane): the written
position is 0.1 and non-negative. -/
theorem C7_witness :
    detectorPos 3 = 1 / 10 ∧ 0 ≤ detectorPos 3 :=
  ⟨(C7_amended_position_formula.1 3).1 (by norm_num),
    (C7_amended_position_formula.1 3).2.2⟩

end TrafficSim
